import Mathlib

/-!
Verification of the routing-URL validation core of the rover `subgraph publish`
command (src/command/subgraph/publish.rs).

The embedding models:
  * `Url::parse` from the external `url` crate (WHATWG URL Standard), on the
    fragment exercised here: scheme extraction (lower-cased), authority/host
    extraction for special schemes (domain hosts ASCII-lowercased) and for
    non-special schemes (opaque hosts kept verbatim), and port digit checking;
  * `Publish::prompt_for_publish`, `Publish::handle_maybe_invalid_routing_url`,
    `Publish::non_tty_hard_error`, `Publish::non_tty_warn_about_local_url`, and
    the validation phase of `Publish::run`.

Streams are modelled explicitly: the reader is a list of byte values, the
writer is an accumulated string.  Terminal styling (`Style::paint` from
`rover-std`, whose source is not part of this tree) is modelled as the
identity on the painted text: the messages the program compares and the tests
assert on are the unstyled texts.
-/

/-- ASCII-lowercase a single character (A-Z mapped to a-z, all else kept). -/
def asciiLowerChar (c : Char) : Char :=
  if 65 ≤ c.toNat ∧ c.toNat ≤ 90 then Char.ofNat (c.toNat + 32) else c

/-- ASCII-lowercase a string. -/
def asciiLowerStr (s : String) : String :=
  String.mk (s.data.map asciiLowerChar)

def isAsciiAlpha (c : Char) : Bool :=
  (65 ≤ c.toNat && c.toNat ≤ 90) || (97 ≤ c.toNat && c.toNat ≤ 122)

def isAsciiDigit (c : Char) : Bool :=
  48 ≤ c.toNat && c.toNat ≤ 57

/-- Characters allowed after the first character of a URL scheme. -/
def isSchemeChar (c : Char) : Bool :=
  isAsciiAlpha c || isAsciiDigit c || c == '+' || c == '-' || c == '.'

/-- Split the input at the first colon: returns the characters before it and
the characters after it, or none when there is no colon at all. -/
def splitAtColon : List Char → Option (List Char × List Char)
  | [] => none
  | c :: cs =>
    if c == ':' then some ([], cs)
    else
      match splitAtColon cs with
      | some (a, r) => some (c :: a, r)
      | none => none

/-- Characters that terminate a host component. -/
def isHostEnd (c : Char) : Bool :=
  c == '/' || c == '\\' || c == '?' || c == '#' || c == ':'

/-- Characters the model accepts inside a host component. -/
def isHostChar (c : Char) : Bool :=
  isAsciiAlpha c || isAsciiDigit c || c == '-' || c == '.' || c == '_'

/-- Take the host characters up to (excluding) the first terminator; also
returns the rest, terminator included. -/
def takeHost : List Char → List Char × List Char
  | [] => ([], [])
  | c :: cs =>
    if isHostEnd c then ([], c :: cs)
    else
      let (h, r) := takeHost cs
      (c :: h, r)

/-- Characters up to the first path, query or fragment delimiter. -/
def takeUntilPath : List Char → List Char
  | [] => []
  | c :: cs =>
    if c == '/' || c == '\\' || c == '?' || c == '#' then []
    else c :: takeUntilPath cs

/-- After the host, a colon must be followed by a (possibly empty) digit-only
port; anything else that follows the host starts the path/query/fragment. -/
def portOk : List Char → Bool
  | [] => true
  | c :: cs => if c == ':' then (takeUntilPath cs).all isAsciiDigit else true

/-- Skip the slashes and backslashes that may follow `scheme:` for a special
scheme (the WHATWG special-authority-ignore-slashes state). -/
def skipSlashes : List Char → List Char
  | [] => []
  | c :: cs => if c == '/' || c == '\\' then skipSlashes cs else c :: cs

/-- The WHATWG special schemes, for which the authority is mandatory and the
host is a domain. -/
def specialScheme (s : String) : Bool :=
  s == "http" || s == "https" || s == "ws" || s == "wss" || s == "ftp" || s == "file"

/-- The parts of a parsed URL that the validation inspects: `Url::scheme`
(always returned lower-cased by the crate) and `Url::host_str`. -/
structure ParsedUrl where
  scheme : String
  host : Option String
deriving DecidableEq

/-- Model of `url::Url::parse` (the external `url` crate, WHATWG URL Standard)
on the fragment this program exercises.  A candidate parses only when it has a
valid `scheme:` prefix (first character ASCII-alphabetic, the rest
alphanumeric or `+`/`-`/`.`); the scheme is ASCII-lowercased, as `Url::scheme`
documents.  For a special scheme (http, https, ws, wss, ftp, file) the
authority is parsed after skipping slashes; an empty or malformed host or a
non-numeric port is a parse error, and the domain host is ASCII-lowercased
(WHATWG domain-to-ASCII).  For a non-special scheme, `//` introduces an opaque
host kept verbatim, and otherwise the URL is a path-only URL with no host. -/
def urlParse (input : String) : Option ParsedUrl :=
  match splitAtColon input.data with
  | none => none
  | some (schemeChars, rest) =>
    if schemeChars.isEmpty then none
    else if !(isAsciiAlpha (schemeChars.headD ' ') && schemeChars.all isSchemeChar) then none
    else
      let scheme := asciiLowerStr (String.mk schemeChars)
      if specialScheme scheme then
        let r := skipSlashes rest
        let (h, after) := takeHost r
        if h.isEmpty then none
        else if !(h.all isHostChar) then none
        else if !(portOk after) then none
        else some ⟨scheme, some (asciiLowerStr (String.mk h))⟩
      else
        match rest with
        | '/' :: '/' :: r2 =>
          let (h, after) := takeHost r2
          if !(h.all isHostChar) then none
          else if !(portOk after) then none
          else some ⟨scheme, if h.isEmpty then none else some (String.mk h)⟩
        | _ => some ⟨scheme, none⟩

/-- The remediation suggestion attached by `non_tty_hard_error`
(`RoverErrorSuggestion::AllowInvalidRoutingUrlOrSpecifyValidUrl`). -/
inductive RoverErrorSuggestion where
  | allowInvalidRoutingUrlOrSpecifyValidUrl
deriving DecidableEq

/-- The errors the validation core can produce: an `anyhow!` message error
(the cancellation), the `io::Error` that `read_exact` returns at end of input
(`UnexpectedEof`), and a `RoverError` carrying a remediation suggestion. -/
inductive RoverError where
  | anyhowMsg (msg : String)
  | ioUnexpectedEof
  | withSuggestion (msg : String) (s : RoverErrorSuggestion)
deriving DecidableEq

/-- Result of a call: `Ok`, `Err`, or a Rust panic (reachable through the
`unwrap()` in `prompt_for_publish`). -/
inductive PResult (α : Type) where
  | ok (a : α)
  | err (e : RoverError)
  | panicked (msg : String)
deriving DecidableEq

/-- The fixed cancellation message of `prompt_for_publish`. -/
def cancelMsg : String :=
  "You cancelled a subgraph publish due to an invalid routing url."

/-- The panic message of `unwrap()` on the failed `from_utf8` conversion. -/
def unwrapPanicMsg : String :=
  "called `Result::unwrap()` on an `Err` value"

/-- Model of `Publish::prompt_for_publish` (publish.rs lines 181-194).  Writes
`message` followed by `" [y/N] "`, then reads exactly one byte with
`read_exact`.  An empty reader makes `read_exact` fail with `UnexpectedEof`,
propagated by `?`.  A byte that is not valid single-byte UTF-8 (value at or
above 128) makes `from_utf8(...).unwrap()` panic.  Otherwise the byte,
lower-cased, is compared with `"y"`: `y`/`Y` give `Ok(Some(true))` and every
other byte gives the cancellation error. -/
def prompt_for_publish (message : String) (input : List Nat) (output : String) :
    PResult (Option Bool) × String × List Nat :=
  let output2 := output ++ message ++ " [y/N] "
  match input with
  | [] => (.err .ioUnexpectedEof, output2, [])
  | b :: rest =>
    if 128 ≤ b then (.panicked unwrapPanicMsg, output2, rest)
    else if b == 121 || b == 89 then (.ok (some true), output2, rest)
    else (.err (.anyhowMsg cancelMsg), output2, rest)

/-- Propagation of `Self::prompt_for_publish(...)?` inside
`handle_maybe_invalid_routing_url`: the `Ok` value is discarded and the
function continues to its own `Ok(())`. -/
def runPrompt (message : String) (input : List Nat) (output : String) :
    PResult Unit × String × List Nat :=
  match prompt_for_publish message input output with
  | (.ok _, o, i) => (.ok (), o, i)
  | (.err e, o, i) => (.err e, o, i)
  | (.panicked m, o, i) => (.panicked m, o, i)

/-- The reason built at publish.rs line 134 (styling modelled as identity). -/
def unsupportedReason (routing_url scheme : String) : String :=
  "`" ++ routing_url ++ "` is not a valid routing URL. The `" ++ scheme ++
    "` protocol is not supported by the router. Valid protocols are `http` and `https`."

/-- The reason built at publish.rs line 147. -/
def localHostReason (host : String) : String :=
  "The host `" ++ host ++
    "` is not routable via the public internet. Continuing the publish will make this subgraph reachable in local environments only."

/-- The reason built at publish.rs line 162. -/
def unparsableReason (routing_url : String) : String :=
  "`" ++ routing_url ++ "` is not a valid routing URL."

/-- The suffix appended to the unparsable and unsupported-scheme prompts
(publish.rs lines 138 and 168). -/
def continuingSuffix : String :=
  " Continuing the publish will make this subgraph unreachable by your supergraph. Would you still like to publish?"

/-- Model of `Publish::non_tty_hard_error` (publish.rs lines 196-199). -/
def non_tty_hard_error (reason : String) : PResult Unit :=
  .err (.withSuggestion reason .allowInvalidRoutingUrlOrSpecifyValidUrl)

/-- Model of `Publish::non_tty_warn_about_local_url` (publish.rs lines 201-207):
writes `WARN: ` followed by the reason and a newline, then returns `Ok(())`. -/
def non_tty_warn_about_local_url (reason output : String) : PResult Unit × String :=
  (.ok (), output ++ "WARN: " ++ reason ++ "\n")

/-- Model of `Publish::handle_maybe_invalid_routing_url` (publish.rs lines 119-179),
threading the reader (list of bytes) and writer (accumulated string). -/
def handle_maybe_invalid_routing_url (maybe_invalid_routing_url : Option String)
    (input : List Nat) (output : String) (is_atty : Bool) :
    PResult Unit × String × List Nat :=
  match maybe_invalid_routing_url with
  | none => (.ok (), output, input)
  | some routing_url =>
    match urlParse routing_url with
    | some parsed_url =>
      let reason := unsupportedReason routing_url parsed_url.scheme
      if !(parsed_url.scheme == "http" || parsed_url.scheme == "https") then
        if is_atty then runPrompt (reason ++ continuingSuffix) input output
        else (non_tty_hard_error reason, output, input)
      else
        match parsed_url.host with
        | some host =>
          if host == "localhost" || host == "127.0.0.1" then
            let reason2 := localHostReason host
            if is_atty then
              runPrompt (reason2 ++ " Would you still like to publish?") input output
            else
              let (r, o) := non_tty_warn_about_local_url reason2 output
              (r, o, input)
          else (.ok (), output, input)
        | none => (.ok (), output, input)
    | none =>
      let reason := unparsableReason routing_url
      if is_atty then runPrompt (reason ++ continuingSuffix) input output
      else (non_tty_hard_error reason, output, input)

/-- The routing-URL validation phase of `Publish::run` (publish.rs lines
57-85).  When `allow_invalid_routing_url` is false the caller-supplied
candidate is validated first; then, whenever `routing_url` is `None`, the URL
fetched from the remote source (`routing_url::run`, an external collaborator
modelled by the `fetch_response` argument) is validated — this second
validation is not guarded by the flag.  Client construction and the fetch
itself are network collaborators and are modelled as succeeding. -/
def run_validation (allow_invalid_routing_url : Bool) (routing_url : Option String)
    (fetch_response : String) (input : List Nat) (output : String) (is_atty : Bool) :
    PResult Unit × String × List Nat :=
  let step1 :=
    if !allow_invalid_routing_url then
      handle_maybe_invalid_routing_url routing_url input output is_atty
    else (.ok (), output, input)
  match step1 with
  | (.ok _, o1, i1) =>
    if routing_url.isNone then
      handle_maybe_invalid_routing_url (some fetch_response) i1 o1 is_atty
    else (.ok (), o1, i1)
  | e => e

/-- The four-way classification implicit in the branch structure of
`handle_maybe_invalid_routing_url` (publish.rs lines 130-158). -/
inductive Classification where
  | unparsable
  | unsupportedScheme (scheme : String)
  | localHost (host : String)
  | validPublic
deriving DecidableEq

/-- Classify a candidate routing URL exactly as the branch conditions of
`handle_maybe_invalid_routing_url` do. -/
def classify (routing_url : String) : Classification :=
  match urlParse routing_url with
  | none => .unparsable
  | some u =>
    if !(u.scheme == "http" || u.scheme == "https") then .unsupportedScheme u.scheme
    else
      match u.host with
      | some h =>
        if h == "localhost" || h == "127.0.0.1" then .localHost h else .validPublic
      | none => .validPublic

/-- The string `part` occurs as a contiguous substring of `whole`. -/
def containsText (whole part : String) : Prop :=
  ∃ pre post, pre ++ part ++ post = whole

/-- Whatever the reader holds, the prompt writes the message followed by
`" [y/N] "` and consumes at most the first byte of the reader. -/
theorem prompt_stream (message : String) (input : List Nat) (output : String) :
    (prompt_for_publish message input output).2 =
      (output ++ message ++ " [y/N] ", input.tail) := by
  unfold prompt_for_publish
  cases input with
  | nil => rfl
  | cons b rest =>
    by_cases h1 : 128 ≤ b
    · simp [h1]
    · by_cases h2 : (b == 121 || b == 89) = true
      · simp [h1, h2]
      · simp [h1, h2]

/-- Discarding the prompt value does not change the stream effects. -/
theorem runPrompt_stream (message : String) (input : List Nat) (output : String) :
    (runPrompt message input output).2 = (prompt_for_publish message input output).2 := by
  unfold runPrompt
  split <;> simp_all

/-- On an unparsable candidate in TTY mode, the handler is exactly the prompt
with the unparsable message. -/
theorem handle_unparsable_tty (s : String) (hp : urlParse s = none)
    (input : List Nat) (output : String) :
    handle_maybe_invalid_routing_url (some s) input output true =
      runPrompt (unparsableReason s ++ continuingSuffix) input output := by
  simp only [handle_maybe_invalid_routing_url, hp]
  rfl

/-- On an unparsable candidate in non-TTY mode, the handler is exactly the
hard error, with untouched streams. -/
theorem handle_unparsable_nontty (s : String) (hp : urlParse s = none)
    (input : List Nat) (output : String) :
    handle_maybe_invalid_routing_url (some s) input output false =
      (non_tty_hard_error (unparsableReason s), output, input) := by
  simp only [handle_maybe_invalid_routing_url, hp]
  rfl

/-- On an unsupported scheme in TTY mode, the handler is exactly the prompt
with the unsupported-scheme message. -/
theorem handle_unsupported_tty (s : String) (u : ParsedUrl) (hp : urlParse s = some u)
    (hs : (u.scheme == "http" || u.scheme == "https") = false)
    (input : List Nat) (output : String) :
    handle_maybe_invalid_routing_url (some s) input output true =
      runPrompt (unsupportedReason s u.scheme ++ continuingSuffix) input output := by
  simp only [handle_maybe_invalid_routing_url, hp, hs]
  rfl

/-- On an unsupported scheme in non-TTY mode, the handler is exactly the hard
error, with untouched streams. -/
theorem handle_unsupported_nontty (s : String) (u : ParsedUrl) (hp : urlParse s = some u)
    (hs : (u.scheme == "http" || u.scheme == "https") = false)
    (input : List Nat) (output : String) :
    handle_maybe_invalid_routing_url (some s) input output false =
      (non_tty_hard_error (unsupportedReason s u.scheme), output, input) := by
  simp only [handle_maybe_invalid_routing_url, hp, hs]
  rfl

/-- On an http/https candidate with a local host in TTY mode, the handler is
exactly the prompt with the local-host message. -/
theorem handle_local_tty (s : String) (u : ParsedUrl) (h : String)
    (hp : urlParse s = some u)
    (hs : (u.scheme == "http" || u.scheme == "https") = true)
    (hh : u.host = some h)
    (hl : (h == "localhost" || h == "127.0.0.1") = true)
    (input : List Nat) (output : String) :
    handle_maybe_invalid_routing_url (some s) input output true =
      runPrompt (localHostReason h ++ " Would you still like to publish?") input output := by
  simp only [handle_maybe_invalid_routing_url, hp, hs, hh, hl]
  simp

/-- On an http/https candidate with a local host in non-TTY mode, the handler
writes the warning line and succeeds. -/
theorem handle_local_nontty (s : String) (u : ParsedUrl) (h : String)
    (hp : urlParse s = some u)
    (hs : (u.scheme == "http" || u.scheme == "https") = true)
    (hh : u.host = some h)
    (hl : (h == "localhost" || h == "127.0.0.1") = true)
    (input : List Nat) (output : String) :
    handle_maybe_invalid_routing_url (some s) input output false =
      (PResult.ok (), output ++ "WARN: " ++ localHostReason h ++ "\n", input) := by
  simp only [handle_maybe_invalid_routing_url, hp, hs, hh, hl]
  rfl

/-- On an http/https candidate with a non-local host, the handler succeeds
with untouched streams in both TTY modes. -/
theorem handle_public (s : String) (u : ParsedUrl) (h : String)
    (hp : urlParse s = some u)
    (hs : (u.scheme == "http" || u.scheme == "https") = true)
    (hh : u.host = some h)
    (hl : (h == "localhost" || h == "127.0.0.1") = false)
    (input : List Nat) (output : String) (is_atty : Bool) :
    handle_maybe_invalid_routing_url (some s) input output is_atty =
      (PResult.ok (), output, input) := by
  simp only [handle_maybe_invalid_routing_url, hp, hs, hh, hl]
  simp

/-- The unparsable-candidate reason contains the expected fragment. -/
theorem unparsableReason_contains (s : String) :
    containsText (unparsableReason s) "not a valid routing URL" := by
  refine ⟨"`" ++ s ++ "` is ", ".", ?_⟩
  have h1 : ("` is not a valid routing URL." : String) =
      "` is " ++ "not a valid routing URL" ++ "." := rfl
  rw [unparsableReason, h1]
  simp only [String.append_assoc]

/-- The unsupported-scheme reason names the offending scheme. -/
theorem unsupportedReason_contains_scheme (s scheme : String) :
    containsText (unsupportedReason s scheme) scheme := by
  refine ⟨"`" ++ s ++ "` is not a valid routing URL. The `",
    "` protocol is not supported by the router. Valid protocols are `http` and `https`.", ?_⟩
  rw [unsupportedReason]

/-- The unsupported-scheme reason states which protocols are accepted. -/
theorem unsupportedReason_contains_protocols (s scheme : String) :
    containsText (unsupportedReason s scheme)
      "Valid protocols are `http` and `https`" := by
  refine ⟨"`" ++ s ++ "` is not a valid routing URL. The `" ++ scheme ++
    "` protocol is not supported by the router. ", ".", ?_⟩
  have h1 : ("` protocol is not supported by the router. Valid protocols are `http` and `https`." : String) =
      "` protocol is not supported by the router. " ++
        "Valid protocols are `http` and `https`" ++ "." := rfl
  rw [unsupportedReason, h1]
  simp only [String.append_assoc]

/-- The local-host reason names the host. -/
theorem localHostReason_contains_host (h : String) :
    containsText (localHostReason h) h := by
  refine ⟨"The host `",
    "` is not routable via the public internet. Continuing the publish will make this subgraph reachable in local environments only.", ?_⟩
  rw [localHostReason]

/-- Claim C1, counterexample: with the override flag set but no caller-supplied
routing URL, a fetched URL of `invalid-url` in non-TTY mode makes the publish
hard-fail — validation does not always yield Proceed under the flag, because
the second validation call (on the fetched URL) is not guarded by the flag. -/
theorem c1_counterexample :
    run_validation true none "invalid-url" [] "" false =
      (PResult.err (RoverError.withSuggestion "`invalid-url` is not a valid routing URL."
          RoverErrorSuggestion.allowInvalidRoutingUrlOrSpecifyValidUrl), "", []) := by
  rfl

/-- Claim C1 (amended): when `allow_invalid_routing_url` is true, a
caller-supplied routing URL is never classified and triggers no interaction —
validation succeeds with untouched streams; but when no routing URL was
supplied, the URL fetched from the remote source is still validated exactly as
if the flag were absent, and may prompt, warn, or hard-fail. -/
theorem c1_override_scope (u fetch : String) (input : List Nat) (output : String)
    (is_atty : Bool) :
    run_validation true (some u) fetch input output is_atty =
      (PResult.ok (), output, input) ∧
    run_validation true none fetch input output is_atty =
      handle_maybe_invalid_routing_url (some fetch) input output is_atty :=
  ⟨rfl, rfl⟩

/-- Claim C2, counterexample: at end of input the prompt returns the
propagated `read_exact` I/O error, which is a different error value from the
cancellation failure produced by a non-`y` byte such as `n`. -/
theorem c2_counterexample :
    (prompt_for_publish "Would you still like to publish?" [] "").1 =
      PResult.err RoverError.ioUnexpectedEof ∧
    (prompt_for_publish "Would you still like to publish?" [110] "").1 =
      PResult.err (RoverError.anyhowMsg cancelMsg) ∧
    RoverError.ioUnexpectedEof ≠ RoverError.anyhowMsg cancelMsg := by
  exact ⟨rfl, rfl, by decide⟩

/-- Claim C2 (amended): when no byte is available on the input stream, the
prompt still writes its message, then fails with the propagated I/O
end-of-input error — the publish does not proceed, but the outcome is a
distinct I/O error, not the cancellation failure. -/
theorem c2_eof_is_io_error (message output : String) :
    prompt_for_publish message [] output =
      (PResult.err RoverError.ioUnexpectedEof, output ++ message ++ " [y/N] ", []) := rfl

/-- Claim C3, counterexample: the single byte 128 is not `y` or `Y`, yet the
prompt panics (the `unwrap()` on the failed UTF-8 conversion) instead of
returning the cancellation failure. -/
theorem c3_counterexample :
    prompt_for_publish "m" [128] "" =
      (PResult.panicked unwrapPanicMsg, "m [y/N] ", []) ∧
    (prompt_for_publish "m" [128] "").1 ≠ PResult.err (RoverError.anyhowMsg cancelMsg) := by
  exact ⟨rfl, by decide⟩

/-- Claim C3 (amended): a single byte below 128 that is not `y` (121) or `Y`
(89) yields exactly the cancellation failure whose message says the user
cancelled the subgraph publish; a byte of 128 or above fails the UTF-8
conversion and the `unwrap()` panics instead. -/
theorem c3_non_affirmative_byte (b : Nat) (message output : String) (input : List Nat) :
    (b < 128 → b ≠ 121 → b ≠ 89 →
      prompt_for_publish message (b :: input) output =
        (PResult.err (RoverError.anyhowMsg cancelMsg),
          output ++ message ++ " [y/N] ", input)) ∧
    (128 ≤ b →
      prompt_for_publish message (b :: input) output =
        (PResult.panicked unwrapPanicMsg, output ++ message ++ " [y/N] ", input)) := by
  constructor
  · intro hlt h1 h2
    have hna : ¬ 128 ≤ b := by omega
    have hb : (b == 121 || b == 89) = false := by
      simp only [Bool.or_eq_false_iff, beq_eq_false_iff_ne, ne_eq]
      exact ⟨h1, h2⟩
    unfold prompt_for_publish
    simp [hna, hb]
  · intro hge
    unfold prompt_for_publish
    simp [hge]

/-- Claim C3, witness: byte 110 (`n`) cancels; byte 200 panics. -/
theorem c3_witness :
    prompt_for_publish "m" [110] "" =
      (PResult.err (RoverError.anyhowMsg cancelMsg), "m [y/N] ", []) ∧
    prompt_for_publish "m" [200] "" =
      (PResult.panicked unwrapPanicMsg, "m [y/N] ", []) :=
  ⟨(c3_non_affirmative_byte 110 "m" "" []).1 (by decide) (by decide) (by decide),
   (c3_non_affirmative_byte 200 "m" "" []).2 (by decide)⟩

/-- Claim C4: every prompt invocation writes the message followed by
`" [y/N] "` to the output stream and consumes exactly the first byte of the
input stream — one read, one decision, no re-prompt loop — and when that byte
is `y` (121) or `Y` (89) the prompt returns `Ok(Some(true))`. -/
theorem c4_prompt_mechanics (message output : String) (input : List Nat)
    (b : Nat) (rest : List Nat) :
    ((prompt_for_publish message input output).2.1 = output ++ message ++ " [y/N] " ∧
      (prompt_for_publish message input output).2.2 = input.tail) ∧
    (b = 121 ∨ b = 89 →
      prompt_for_publish message (b :: rest) output =
        (PResult.ok (some true), output ++ message ++ " [y/N] ", rest)) := by
  have hst := prompt_stream message input output
  refine ⟨⟨?_, ?_⟩, ?_⟩
  · rw [hst]
  · rw [hst]
  · rintro (rfl | rfl) <;> rfl

/-- Claim C4, witness: on the byte `y` the prompt succeeds after writing the
message and consuming the byte. -/
theorem c4_witness :
    prompt_for_publish "m" [121] "" = (PResult.ok (some true), "m [y/N] ", []) :=
  (c4_prompt_mechanics "m" "" [121] 121 []).2 (Or.inl rfl)

/-- Claim C5: for every candidate that fails to parse, TTY mode writes the
prompt (message plus `" [y/N] "`) and awaits one byte, while non-TTY mode
makes no prompt attempt and hard-fails with the remediation suggestion, the
message containing `not a valid routing URL`. -/
theorem c5_unparsable (s : String) (hp : urlParse s = none)
    (input : List Nat) (output : String) :
    ((handle_maybe_invalid_routing_url (some s) input output true).2.1 =
        output ++ (unparsableReason s ++ continuingSuffix) ++ " [y/N] " ∧
      (handle_maybe_invalid_routing_url (some s) input output true).2.2 = input.tail) ∧
    handle_maybe_invalid_routing_url (some s) input output false =
      (PResult.err (RoverError.withSuggestion (unparsableReason s)
         RoverErrorSuggestion.allowInvalidRoutingUrlOrSpecifyValidUrl), output, input) ∧
    containsText (unparsableReason s) "not a valid routing URL" := by
  refine ⟨⟨?_, ?_⟩, ?_, unparsableReason_contains s⟩
  · rw [handle_unparsable_tty s hp, runPrompt_stream, prompt_stream]
  · rw [handle_unparsable_tty s hp, runPrompt_stream, prompt_stream]
  · rw [handle_unparsable_nontty s hp]; rfl

/-- Claim C5, witness: the empty string hard-fails in non-TTY mode, and
`invalid-url` in TTY mode consumes the one available byte. -/
theorem c5_witness :
    handle_maybe_invalid_routing_url (some "") [] "" false =
      (PResult.err (RoverError.withSuggestion (unparsableReason "")
         RoverErrorSuggestion.allowInvalidRoutingUrlOrSpecifyValidUrl), "", []) ∧
    (handle_maybe_invalid_routing_url (some "invalid-url") [110] "" true).2.2 = [] :=
  ⟨((c5_unparsable "" (by decide) [] "").2).1,
   ((c5_unparsable "invalid-url" (by decide) [110] "").1).2⟩

/-- Claim C6: for every candidate parsing with a scheme outside http/https
(whatever its host, localhost included), the message names the offending
scheme and states that only `http` and `https` are supported; in non-TTY mode
this is a hard failure carrying the same remediation suggestion as the
unparsable case, and in TTY mode the message is written as a prompt. -/
theorem c6_unsupported_scheme (s : String) (u : ParsedUrl)
    (hp : urlParse s = some u)
    (hs : u.scheme ≠ "http" ∧ u.scheme ≠ "https")
    (input : List Nat) (output : String) :
    handle_maybe_invalid_routing_url (some s) input output false =
      (PResult.err (RoverError.withSuggestion (unsupportedReason s u.scheme)
         RoverErrorSuggestion.allowInvalidRoutingUrlOrSpecifyValidUrl), output, input) ∧
    (handle_maybe_invalid_routing_url (some s) input output true).2.1 =
      output ++ (unsupportedReason s u.scheme ++ continuingSuffix) ++ " [y/N] " ∧
    containsText (unsupportedReason s u.scheme) u.scheme ∧
    containsText (unsupportedReason s u.scheme) "Valid protocols are `http` and `https`" := by
  have hs2 : (u.scheme == "http" || u.scheme == "https") = false := by
    simp only [Bool.or_eq_false_iff, beq_eq_false_iff_ne, ne_eq]
    exact ⟨hs.1, hs.2⟩
  refine ⟨?_, ?_, unsupportedReason_contains_scheme s u.scheme,
    unsupportedReason_contains_protocols s u.scheme⟩
  · rw [handle_unsupported_nontty s u hp hs2]; rfl
  · rw [handle_unsupported_tty s u hp hs2, runPrompt_stream, prompt_stream]

/-- Claim C6, witness: `ftp://localhost` (unsupported scheme, local host)
hard-fails in non-TTY mode with the scheme-naming reason and suggestion. -/
theorem c6_witness :
    handle_maybe_invalid_routing_url (some "ftp://localhost") [] "" false =
      (PResult.err (RoverError.withSuggestion (unsupportedReason "ftp://localhost" "ftp")
         RoverErrorSuggestion.allowInvalidRoutingUrlOrSpecifyValidUrl), "", []) :=
  (c6_unsupported_scheme "ftp://localhost" ⟨"ftp", some "localhost"⟩ (by decide)
    (by decide) [] "").1

/-- Claim C7: for every candidate parsing with scheme http/https and host
`localhost` or `127.0.0.1`, TTY mode writes a prompt and awaits one byte,
while non-TTY mode writes a warning line naming the host and returns success —
never an error. -/
theorem c7_localhost (s : String) (u : ParsedUrl) (h : String)
    (hp : urlParse s = some u)
    (hs : u.scheme = "http" ∨ u.scheme = "https")
    (hh : u.host = some h)
    (hl : h = "localhost" ∨ h = "127.0.0.1")
    (input : List Nat) (output : String) :
    ((handle_maybe_invalid_routing_url (some s) input output true).2.1 =
        output ++ (localHostReason h ++ " Would you still like to publish?") ++ " [y/N] " ∧
      (handle_maybe_invalid_routing_url (some s) input output true).2.2 = input.tail) ∧
    handle_maybe_invalid_routing_url (some s) input output false =
      (PResult.ok (), output ++ "WARN: " ++ localHostReason h ++ "\n", input) ∧
    containsText (localHostReason h) h := by
  have hs2 : (u.scheme == "http" || u.scheme == "https") = true := by
    rcases hs with h1 | h1 <;> simp [h1]
  have hl2 : (h == "localhost" || h == "127.0.0.1") = true := by
    rcases hl with h1 | h1 <;> simp [h1]
  refine ⟨⟨?_, ?_⟩, ?_, localHostReason_contains_host h⟩
  · rw [handle_local_tty s u h hp hs2 hh hl2, runPrompt_stream, prompt_stream]
  · rw [handle_local_tty s u h hp hs2 hh hl2, runPrompt_stream, prompt_stream]
  · exact handle_local_nontty s u h hp hs2 hh hl2 input output

/-- Claim C7, witness: `http://localhost:8000` in non-TTY mode warns and
succeeds. -/
theorem c7_witness :
    handle_maybe_invalid_routing_url (some "http://localhost:8000") [] "" false =
      (PResult.ok (), "" ++ "WARN: " ++ localHostReason "localhost" ++ "\n", []) :=
  ((c7_localhost "http://localhost:8000" ⟨"http", some "localhost"⟩ "localhost"
    (by decide) (Or.inl rfl) rfl (Or.inl rfl) [] "").2).1

/-- Claim C8: for every candidate parsing with scheme http/https and a host
that is neither `localhost` nor `127.0.0.1`, validation returns success with
no interaction and no stream side effects, in both TTY and non-TTY modes. -/
theorem c8_public_silent (s : String) (u : ParsedUrl) (h : String)
    (hp : urlParse s = some u)
    (hs : u.scheme = "http" ∨ u.scheme = "https")
    (hh : u.host = some h)
    (hl : h ≠ "localhost" ∧ h ≠ "127.0.0.1")
    (input : List Nat) (output : String) (is_atty : Bool) :
    handle_maybe_invalid_routing_url (some s) input output is_atty =
      (PResult.ok (), output, input) := by
  have hs2 : (u.scheme == "http" || u.scheme == "https") = true := by
    rcases hs with h1 | h1 <;> simp [h1]
  have hl2 : (h == "localhost" || h == "127.0.0.1") = false := by
    simp only [Bool.or_eq_false_iff, beq_eq_false_iff_ne, ne_eq]
    exact ⟨hl.1, hl.2⟩
  exact handle_public s u h hp hs2 hh hl2 input output is_atty

/-- Claim C8, witness: `https://example.com/graphql` proceeds silently in TTY
mode. -/
theorem c8_witness :
    handle_maybe_invalid_routing_url (some "https://example.com/graphql") [] "" true =
      (PResult.ok (), "", []) :=
  c8_public_silent "https://example.com/graphql" ⟨"https", some "example.com"⟩
    "example.com" (by decide) (Or.inr rfl) rfl (by decide) [] "" true

/-- Claim C9, counterexample: `HTTP://example.com` is classified ValidPublic
(not UnsupportedScheme), and `http://LOCALHOST` is classified LocalHost (not
ValidPublic) — the url parser lowercases the scheme and the domain host before
the case-sensitive comparisons run. -/
theorem c9_counterexample :
    classify "HTTP://example.com" = Classification.validPublic ∧
    classify "HTTP://example.com" ≠ Classification.unsupportedScheme "HTTP" ∧
    classify "http://LOCALHOST" = Classification.localHost "localhost" ∧
    classify "http://LOCALHOST" ≠ Classification.validPublic :=
  ⟨rfl, by decide, rfl, by decide⟩

/-- Claim C9 (amended): the scheme and host comparisons are case-sensitive
matches against the lowercase literals, but `Url::parse` ASCII-lowercases the
scheme and the domain host first, so a candidate differing only in letter case
classifies exactly like its lowercase form: `HTTP://example.com` is
ValidPublic and `http://LOCALHOST` is LocalHost `localhost`. -/
theorem c9_case_normalized :
    classify "HTTP://example.com" = classify "http://example.com" ∧
    classify "HTTP://example.com" = Classification.validPublic ∧
    classify "http://LOCALHOST" = classify "http://localhost" ∧
    classify "http://LOCALHOST" = Classification.localHost "localhost" :=
  ⟨rfl, rfl, rfl, rfl⟩

/-- Claim C10: whenever the prompt returns without an error (and without a
panic), the returned value is `Some(true)` — the Ok branch never carries
`Some(false)` or `None`, so a declined confirmation always surfaces as an
error. -/
theorem c10_ok_is_some_true (message : String) (input : List Nat) (output : String)
    (v : Option Bool)
    (hok : (prompt_for_publish message input output).1 = PResult.ok v) :
    v = some true := by
  unfold prompt_for_publish at hok
  cases input with
  | nil => simp at hok
  | cons b rest =>
    by_cases h1 : 128 ≤ b
    · simp [h1] at hok
    · by_cases h2 : (b == 121 || b == 89) = true
      · simp [h1, h2] at hok
        exact hok.symm
      · simp [h1, h2] at hok

/-- Claim C10, witness: at the affirmative byte `y` the prompt returns
`Ok(Some(true))`, and the theorem instantiates to it. -/
theorem c10_witness : (some true : Option Bool) = some true :=
  c10_ok_is_some_true "m" [121] "" (some true) rfl
